import Mathlib

/-!
Verification development for the oc_enex_dashboard frontend.

The embedded code lives in two source files:
* the settings page client component (SMTP panel, users panel,
  notifications panel with a debounced employee search), and
* frontend/lib/server-config.ts with getBackendApiUrl.

React state updates are embedded as explicit state-transition functions:
each async handler becomes a function from the pre-state and the outcome
of its network request to the post-state, and the list of requests it
issues.  The debounced search effect is embedded as a small timer
machine over timestamped keystrokes.
-/

namespace OcEnex

/-- Role of the authenticated identity, as in the UserRole type of the
settings client. -/
inductive UserRole where
  | admin
  | inspector
deriving DecidableEq, Repr

/-- Employee DTO from the settings client. -/
structure Employee where
  emp_id : Nat
  card_no : String
  employee_name : String
deriving DecidableEq, Repr

/-- SMTPSettings DTO from the settings client.  The port is the numeric
value the form holds; JavaScript numbers are modelled as exact
rationals, abstracting IEEE-754 rounding. -/
structure SMTPSettings where
  host : String
  port : ℚ
  username : String
  password : String
  from_email : String
  from_name : String
  use_tls : Bool
  use_ssl : Bool
  cc_list : String
  updated_at : Option String
deriving DecidableEq, Repr

/-- A JSON response payload for the SMTP resource.  Every field is
optional: the TypeScript type says the payload omits the password, but
at runtime the object spread copies whatever keys are present, so the
model keeps a possible password key to show it cannot leak into the
form. -/
structure SmtpPayload where
  host : Option String
  port : Option ℚ
  username : Option String
  password : Option String
  from_email : Option String
  from_name : Option String
  use_tls : Option Bool
  use_ssl : Option Bool
  cc_list : Option String
  updated_at : Option (Option String)
deriving DecidableEq, Repr

/-- Embedding of the object spread used in loadSmtp and saveSmtpSettings:
current form first, then the payload keys, then the literal
password field set to the empty string.  Later keys win, so a present
payload field overrides the form field, and the password is always the
final empty-string literal. -/
def mergeSmtpPayload (current : SMTPSettings) (p : SmtpPayload) : SMTPSettings :=
  { host := p.host.getD current.host
    port := p.port.getD current.port
    username := p.username.getD current.username
    password := ""
    from_email := p.from_email.getD current.from_email
    from_name := p.from_name.getD current.from_name
    use_tls := p.use_tls.getD current.use_tls
    use_ssl := p.use_ssl.getD current.use_ssl
    cc_list := p.cc_list.getD current.cc_list
    updated_at := p.updated_at.getD current.updated_at }

/-- Best-effort parsed body of a non-2xx response: the optional error
and detail keys. -/
structure ErrBody where
  error : Option String
  detail : Option String
deriving DecidableEq, Repr

/-- Embedding of the expression `payload?.error ?? payload?.detail ?? fallback`
used at every throw site: the outer Option is none when the body was not
parseable JSON. -/
def extractErr (body : Option ErrBody) (fallback : String) : String :=
  match body with
  | none => fallback
  | some b =>
    match b.error with
    | some e => e
    | none =>
      match b.detail with
      | some d => d
      | none => fallback

/-- Embedding of the JavaScript expression `a || b` on strings: the empty
string is the only falsy string. -/
def jsOrString (a b : String) : String :=
  if a = "" then b else a

/-- A status code is 2xx exactly when fetch reports response.ok. -/
def is2xx (status : Nat) : Bool :=
  decide (200 ≤ status) && decide (status < 300)

/-- Modelled from the spec: the shared unauthorized handler provided by
the useAuthUser hook is not under src; per the spec a 401 on any call
triggers this single shared handler instead of the call site error path,
so its boolean result is modelled as: consumed exactly when the status
is 401. -/
def handleUnauthorized (status : Nat) : Bool :=
  status == 401

/-- Result of the shared patchUser helper: either a returned boolean or a
thrown error message. -/
inductive PatchResult where
  | ok (b : Bool)
  | thrown (msg : String)
deriving DecidableEq, Repr

/-- Embedding of patchUser from the settings client: 401 is consumed by
the shared unauthorized handler and the helper returns false; any other
non-2xx status throws with the extracted message; a 2xx status returns
true. -/
def patchUser (status : Nat) (body : Option ErrBody) : PatchResult :=
  if handleUnauthorized status then .ok false
  else if !(is2xx status) then .thrown (extractErr body "Failed to update user")
  else .ok true

/-- State of the SMTP panel: the form buffer and its message and flag
fields, plus the page-level error string written by setError. -/
structure SmtpPanelState where
  smtpForm : SMTPSettings
  smtpLoading : Bool
  smtpSaving : Bool
  smtpMessage : String
  pageError : String
deriving DecidableEq, Repr

/-- Outcome of one SMTP request as observed by the awaiting handler:
consumed 401, non-2xx response with an optional parseable body, a
rejected fetch carrying an error message, or a 2xx response with its
JSON payload. -/
inductive SmtpOutcome where
  | unauthorized
  | httpError (body : Option ErrBody)
  | networkError (msg : String)
  | success (payload : SmtpPayload)
deriving DecidableEq, Repr

/-- Embedding of loadSmtp: guarded on the admin role; sets the loading
flag and clears messages, then applies the request outcome; a thrown or
rejected error lands in the page error via setError with the
load-specific fallback; a success merges the payload into the form and
blanks the password; finally clears the loading flag. -/
def loadSmtp (role : UserRole) (s : SmtpPanelState) (o : SmtpOutcome) : SmtpPanelState :=
  if role ≠ .admin then s
  else
    let s1 := { s with smtpLoading := true, smtpMessage := "", pageError := "" }
    let s2 :=
      match o with
      | .unauthorized => s1
      | .httpError body =>
          let m := jsOrString (extractErr body "Failed to load SMTP settings")
            "Failed to load SMTP settings"
          { s1 with pageError := m }
      | .networkError msg =>
          { s1 with pageError := jsOrString msg "Failed to load SMTP settings" }
      | .success p => { s1 with smtpForm := mergeSmtpPayload s1.smtpForm p }
    { s2 with smtpLoading := false }

/-- Embedding of saveSmtpSettings: sets the saving flag and clears the
message, then applies the request outcome; failures land in the panel
message with the save-specific fallback and leave the form untouched; a
success merges the payload (blanking the password) and shows the saved
message; finally clears the saving flag. -/
def saveSmtpSettings (s : SmtpPanelState) (o : SmtpOutcome) : SmtpPanelState :=
  let s1 := { s with smtpSaving := true, smtpMessage := "" }
  let s2 :=
    match o with
    | .unauthorized => s1
    | .httpError body =>
        let m := jsOrString (extractErr body "Failed to save SMTP settings")
          "Failed to save SMTP settings"
        { s1 with smtpMessage := m }
    | .networkError msg =>
        { s1 with smtpMessage := jsOrString msg "Failed to save SMTP settings" }
    | .success p =>
        { s1 with smtpForm := mergeSmtpPayload s1.smtpForm p,
                  smtpMessage := "SMTP settings saved." }
  { s2 with smtpSaving := false }

/-- Save outcomes the claim about failed saves ranges over: a non-2xx
non-401 response or a network error, the two paths that reach the catch
block. -/
def isSaveFailure : SmtpOutcome → Bool
  | .httpError _ => true
  | .networkError _ => true
  | _ => false

/-- The create-user form buffer newUser. -/
structure NewUserForm where
  email : String
  username : String
  password : String
  role : UserRole
deriving DecidableEq, Repr

/-- The reset value the creation form is set to after a successful
create, and also its initial value. -/
def defaultNewUserForm : NewUserForm :=
  { email := "", username := "", password := "", role := .inspector }

/-- Outcome of the create-user POST. -/
inductive CreateOutcome where
  | unauthorized
  | httpError (body : Option ErrBody)
  | networkError (msg : String)
  | success
deriving DecidableEq, Repr

/-- Create outcomes that count as a failed response: everything except a
2xx. -/
def isCreateFailure : CreateOutcome → Bool
  | .success => false
  | _ => true

/-- Number of user-list requests a call to loadUsers issues: loadUsers
returns before fetching unless the resolved role is admin. -/
def loadUsersRequestCount (role : UserRole) : Nat :=
  if role = .admin then 1 else 0

/-- Embedding of createUser: returns how many user-list reload requests
follow the create response, the resulting creation form buffer, and the
resulting users message.  On success the form is reset to its defaults,
the created message is shown and loadUsers is awaited; on any failure
the form is left untouched. -/
def createUser (role : UserRole) (form : NewUserForm) (o : CreateOutcome) :
    Nat × NewUserForm × String :=
  match o with
  | .unauthorized => (0, form, "")
  | .httpError body =>
      (0, form, jsOrString (extractErr body "Failed to create user") "Failed to create user")
  | .networkError msg =>
      (0, form, jsOrString msg "Failed to create user")
  | .success => (loadUsersRequestCount role, defaultNewUserForm, "User created.")

/-- Embedding of the functional updater passed to setSelectedCardNo when
a search result set arrives: empty set clears the selection; with no
current selection the first result is chosen; a still-present current
selection is kept; otherwise the first result is chosen. -/
def setSelectedCardNoUpdater (payload : List Employee) (current : String) : String :=
  match payload with
  | [] => ""
  | e :: _ =>
    if current = "" then e.card_no
    else if payload.any (fun item => item.card_no == current) then current
    else e.card_no

/-- Displayed state owned by the employee-search part of the
notifications panel. -/
structure NotificationsPanelState where
  employees : List Employee
  selectedCardNo : String
  notifyMessage : String
  employeeLoading : Bool
deriving DecidableEq, Repr

/-- Outcome of one employee-search request as observed by the awaiting
effect body: consumed 401, a 2xx response with its employee list, or a
thrown error carrying the JavaScript error name and message.  An
in-flight request that is aborted by the effect cleanup resolves only as
a failure named AbortError. -/
inductive SearchOutcome where
  | unauthorized
  | success (payload : List Employee)
  | failure (name : String) (msg : String)
deriving DecidableEq, Repr

/-- Embedding of the part of the search effect body that runs once the
awaited request settles: a success stores the employee list and applies
the selection updater; a failure sets the panel message unless the error
is named AbortError, which is deliberately swallowed; the finally block
always clears the loading flag. -/
def applySearchOutcome (o : SearchOutcome) (s : NotificationsPanelState) :
    NotificationsPanelState :=
  match o with
  | .unauthorized => { s with employeeLoading := false }
  | .success payload =>
      { s with employees := payload,
               selectedCardNo := setSelectedCardNoUpdater payload s.selectedCardNo,
               employeeLoading := false }
  | .failure name msg =>
      let m :=
        if name = "AbortError" then s.notifyMessage
        else jsOrString msg "Failed to load employees"
      { s with notifyMessage := m, employeeLoading := false }

/-- One change of the employee search text, at a time in milliseconds. -/
structure Keystroke where
  time : Nat
  text : String
deriving DecidableEq, Repr

/-- The debounce interval of the search effect, in milliseconds. -/
def debounceDelay : Nat := 250

/-- Timer machine embedded from the search useEffect: every change of the
search text re-runs the effect; the cleanup of the previous run clears
its pending setTimeout, and the new run schedules a fresh timeout of
debounceDelay milliseconds that, when it fires, issues one request whose
search parameter is that run's text.  The accumulator carries the pending
timer as its deadline and text.  A pending timer whose deadline is not
after the next keystroke fires and its text joins the issued list;
otherwise the keystroke cancels it and its text joins the cancelled
list.  After the last keystroke the pending timer fires.  Returns
(issued request texts, cancelled timer texts), each in order. -/
def debounceProcess : Option (Nat × String) → List Keystroke → List String × List String
  | none, [] => ([], [])
  | some (_, s), [] => ([s], [])
  | none, k :: rest => debounceProcess (some (k.time + debounceDelay, k.text)) rest
  | some (d, s), k :: rest =>
      if d ≤ k.time then
        let r := debounceProcess (some (k.time + debounceDelay, k.text)) rest
        (s :: r.1, r.2)
      else
        let r := debounceProcess (some (k.time + debounceDelay, k.text)) rest
        (r.1, s :: r.2)

/-- Run the debounce machine from an idle state over a keystroke
sequence. -/
def debounceRun (ks : List Keystroke) : List String × List String :=
  debounceProcess none ks

/-- Every keystroke after the first arrives strictly less than
debounceDelay milliseconds after the previous one. -/
def rapidTyping : List Keystroke → Bool
  | [] => true
  | [_] => true
  | a :: b :: rest => decide (b.time < a.time + debounceDelay) && rapidTyping (b :: rest)

/-- NotificationResult row DTO of a dispatch run report. -/
structure NotificationResult where
  card_no : String
  employee_name : String
  status : String
  notice_type : Option String
  to_email : Option String
  error : Option String
deriving DecidableEq, Repr

/-- NotificationRunResponse DTO: the dispatch run report. -/
structure NotificationRunResponse where
  date : String
  total_targets : Nat
  sent_count : Nat
  skipped_count : Nat
  failed_count : Nat
  results : List NotificationResult
deriving DecidableEq, Repr

/-- Scope argument of runNotifications. -/
inductive NotifyScope where
  | selected
  | all
deriving DecidableEq, Repr

/-- One POST to the notifications run endpoint: the date query parameter
and the optional card_no query parameter. -/
structure NotifyRequest where
  date : String
  card_no : Option String
deriving DecidableEq, Repr

/-- Dispatch-related state of the notifications panel. -/
structure DispatchState where
  notifyRunning : Bool
  notifyResult : Option NotificationRunResponse
  notifyMessage : String
deriving DecidableEq, Repr

/-- Outcome of the dispatch POST. -/
inductive RunOutcome where
  | unauthorized
  | httpError (body : Option ErrBody)
  | networkError (msg : String)
  | success (resp : NotificationRunResponse)
deriving DecidableEq, Repr

/-- Embedding of runNotifications: sets the running flag, clears the
stored report and the message; in selected scope with an empty selection
it throws before any fetch, and the local catch shows the validation
message; otherwise one POST is issued with the date and, in selected
scope, the card number, and the outcome is applied; finally clears the
running flag.  Returns the list of requests issued and the post-state. -/
def runNotifications (scope : NotifyScope) (selectedCardNo notifyDate : String)
    (o : RunOutcome) (s : DispatchState) : List NotifyRequest × DispatchState :=
  let s1 := { s with notifyRunning := true,
                     notifyResult := (none : Option NotificationRunResponse),
                     notifyMessage := "" }
  if scope = .selected ∧ selectedCardNo = "" then
    let m := "Select an employee to send selected notification."
    ([], { s1 with notifyMessage := m, notifyRunning := false })
  else
    let req : NotifyRequest :=
      { date := notifyDate,
        card_no := if scope = .selected then some selectedCardNo else none }
    match o with
    | .unauthorized => ([req], { s1 with notifyRunning := false })
    | .httpError body =>
        let m := jsOrString (extractErr body "Failed to run notifications")
          "Failed to run notifications"
        ([req], { s1 with notifyMessage := m, notifyRunning := false })
    | .networkError msg =>
        let m := jsOrString msg "Failed to run notifications"
        ([req], { s1 with notifyMessage := m, notifyRunning := false })
    | .success resp =>
        ([req], { s1 with notifyResult := some resp, notifyRunning := false })

/-- Numeric value of a list of decimal digits. -/
def digitsVal (cs : List Char) : Nat :=
  cs.foldl (fun acc c => acc * 10 + (c.toNat - 48)) 0

/-- Strip the optional leading minus sign of a numeral, returning
whether it was present. -/
def splitSign : List Char → Bool × List Char
  | '-' :: rest => (true, rest)
  | cs => (false, cs)

/-- Split a character list at the first exponent marker e or E: the part
before it, and the part after it when a marker is present. -/
def splitAtExpChar : List Char → List Char × Option (List Char)
  | [] => ([], none)
  | c :: rest =>
    if c = 'e' ∨ c = 'E' then ([], some rest)
    else
      let r := splitAtExpChar rest
      (c :: r.1, r.2)

/-- Value of an unsigned mantissa per the HTML valid floating-point
number grammar: one or both of a series of digits and a full stop
followed by one or more digits.  none when the shape is not of that
grammar. -/
def parseMantissa (cs : List Char) : Option ℚ :=
  let intDigits := cs.takeWhile Char.isDigit
  let rest := cs.dropWhile Char.isDigit
  match rest with
  | [] => if intDigits.isEmpty then none else some ((digitsVal intDigits : ℚ))
  | '.' :: frac =>
    if frac.isEmpty || !(frac.all Char.isDigit) then none
    else some ((digitsVal intDigits : ℚ) + (digitsVal frac : ℚ) / (10 : ℚ) ^ frac.length)
  | _ => none

/-- Sign and magnitude of an exponent part: optionally a minus or plus
sign, then one or more digits. -/
def parseExpDigits : List Char → Option (Bool × Nat)
  | [] => none
  | '+' :: rest =>
    if rest.isEmpty || !(rest.all Char.isDigit) then none else some (false, digitsVal rest)
  | '-' :: rest =>
    if rest.isEmpty || !(rest.all Char.isDigit) then none else some (true, digitsVal rest)
  | cs => if cs.all Char.isDigit then some (false, digitsVal cs) else none

/-- Value of a valid floating-point number per the HTML grammar:
optionally a minus sign, a mantissa of digits and/or a full stop with
digits, and optionally an exponent marker with an optionally signed
series of digits.  none when the string is not of that grammar.  Values
are exact rationals, abstracting the IEEE-754 rounding of the JavaScript
number type. -/
def jsNumberValue (cs : List Char) : Option ℚ :=
  let p := splitSign cs
  let q := splitAtExpChar p.2
  match parseMantissa q.1 with
  | none => none
  | some m =>
    let signedM := if p.1 then -m else m
    match q.2 with
    | none => some signedM
    | some es =>
      match parseExpDigits es with
      | none => none
      | some ek =>
        some (if ek.1 then signedM / (10 : ℚ) ^ ek.2 else signedM * (10 : ℚ) ^ ek.2)

/-- Whether a string is a valid floating-point number an HTML number
input reports as-is. -/
def validNumberString (s : String) : Bool :=
  (jsNumberValue s.toList).isSome

/-- JavaScript Number coercion on the strings a number input can report:
it agrees with Number on every valid floating-point numeral and on
whitespace-only strings (which coerce to 0); strings outside that
domain, which a number input never reports, are mapped to none (NaN). -/
def jsNumber (s : String) : Option ℚ :=
  match jsNumberValue s.toList with
  | some q => some q
  | none => if s.toList.all Char.isWhitespace then some 0 else none

/-- Embedding of the SMTP port onChange handler expression
Number(event.target.value || 0): an empty reported value coerces the
number 0, any other reported value goes through Number. -/
def smtpPortOnChange (v : String) : Option ℚ :=
  if v = "" then some 0 else jsNumber v

/-- The value sanitization an HTML number input applies before the
change event: content that is not a valid floating-point number is
reported as the empty string.  The port input has type number, so this
runs on every typed string before the onChange handler sees it. -/
def numberInputValue (raw : String) : String :=
  if validNumberString raw then raw else ""

/-- ASCII-and-unicode whitespace trim, embedding String.prototype.trim
as applied to environment variable values. -/
def jsTrim (s : String) : String :=
  String.mk (((s.toList.dropWhile Char.isWhitespace).reverse.dropWhile
    Char.isWhitespace).reverse)

/-- Embedding of one step of the truthy chain
env?.trim() || next: an unset variable or one that trims to the empty
string is falsy and yields nothing; otherwise the trimmed value is
taken. -/
def nonBlankEnv (v : Option String) : Option String :=
  match v with
  | none => none
  | some s => if jsTrim s = "" then none else some (jsTrim s)

/-- Drop one trailing slash: raw.endsWith("/") ? raw.slice(0, -1) : raw. -/
def stripOneTrailingSlash (r : String) : String :=
  match r.toList.getLast? with
  | some c => if c = '/' then String.mk r.toList.dropLast else r
  | none => r

/-- Embedding of getBackendApiUrl over the three environment variables
BACKEND_API_URL, API_BASE_URL, NEXT_PUBLIC_API_BASE_URL (none when
unset): the first one that is non-blank after trimming wins; if none is,
the function throws; the winner is returned with one trailing slash
removed. -/
def getBackendApiUrl (backendApiUrl apiBaseUrl nextPublicApiBaseUrl : Option String) :
    Except String String :=
  match nonBlankEnv backendApiUrl with
  | some raw => .ok (stripOneTrailingSlash raw)
  | none =>
    match nonBlankEnv apiBaseUrl with
    | some raw => .ok (stripOneTrailingSlash raw)
    | none =>
      match nonBlankEnv nextPublicApiBaseUrl with
      | some raw => .ok (stripOneTrailingSlash raw)
      | none => .error "Set BACKEND_API_URL (or API_BASE_URL) to your FastAPI URL."

/-- Whether an Except result is the thrown case. -/
def isErrResult {ε α : Type} : Except ε α → Bool
  | .error _ => true
  | .ok _ => false

/-! Helper lemmas shared by the claim theorems. -/

/-- The JavaScript fallback pattern never yields the empty string when
the fallback is itself nonempty. -/
theorem jsOrString_ne_empty (a b : String) (hb : b ≠ "") : jsOrString a b ≠ "" := by
  unfold jsOrString
  split
  · exact hb
  · assumption

/-! Claim theorems. -/

/-- Claim C2: for every employee-search request that is superseded
(aborted) before completing, its eventual outcome causes no change to
displayed state: the employee list, the selection and the panel message
are all untouched, and in particular no error message is shown for the
AbortError.  In the embedded event model an aborted in-flight request
settles only as a failure named AbortError. -/
theorem aborted_search_is_noop (s : NotificationsPanelState) (msg : String) :
    (applySearchOutcome (.failure "AbortError" msg) s).employees = s.employees ∧
    (applySearchOutcome (.failure "AbortError" msg) s).selectedCardNo = s.selectedCardNo ∧
    (applySearchOutcome (.failure "AbortError" msg) s).notifyMessage = s.notifyMessage := by
  refine ⟨rfl, rfl, ?_⟩
  simp [applySearchOutcome]

/-- Claim C4: after every successful SMTP settings load and after every
successful save, the form buffer password field equals the empty string,
regardless of the response payload (even a payload carrying a password
key) and regardless of the password in the form before the operation. -/
theorem smtp_password_cleared (s : SmtpPanelState) (p : SmtpPayload) :
    (loadSmtp .admin s (.success p)).smtpForm.password = "" ∧
    (saveSmtpSettings s (.success p)).smtpForm.password = "" := by
  constructor
  · simp [loadSmtp, mergeSmtpPayload]
  · simp [saveSmtpSettings, mergeSmtpPayload]

/-- Claim C7: dispatching for the selected employee while the selection
is empty issues no network request, sets the notifications panel message
to the validation message, and stores no response as the run report. -/
theorem run_selected_requires_selection (notifyDate : String) (o : RunOutcome)
    (s : DispatchState) :
    (runNotifications .selected "" notifyDate o s).1 = [] ∧
    (runNotifications .selected "" notifyDate o s).2.notifyMessage =
      "Select an employee to send selected notification." ∧
    (runNotifications .selected "" notifyDate o s).2.notifyResult = none := by
  refine ⟨?_, ?_, ?_⟩ <;> simp [runNotifications]

/-- Claim C9: for every string typed into the SMTP port field of the
number input, the port held by the form becomes the numeric value of the
input when it is a valid floating-point number (decimal and exponent
numerals included), and 0 when the input is empty or invalid; in every
case the handler produces a value, so no keystroke is rejected. -/
theorem smtp_port_coercion (raw : String) :
    (∀ q, jsNumberValue raw.toList = some q →
      smtpPortOnChange (numberInputValue raw) = some q) ∧
    (jsNumberValue raw.toList = none →
      smtpPortOnChange (numberInputValue raw) = some 0) := by
  constructor
  · intro q hq
    have hval : validNumberString raw = true := by
      simp only [validNumberString, hq, Option.isSome_some]
    have hne : raw ≠ "" := by
      intro he
      rw [he] at hq
      rw [show jsNumberValue "".toList = none from rfl] at hq
      exact Option.noConfusion hq
    unfold numberInputValue smtpPortOnChange jsNumber
    rw [if_pos hval, if_neg hne, hq]
  · intro hq
    have hval : ¬ validNumberString raw = true := by
      simp only [validNumberString, hq, Option.isSome_none]
      exact Bool.false_ne_true
    unfold numberInputValue smtpPortOnChange
    rw [if_neg hval, if_pos rfl]

/-- Witness for claim C9 at concrete inputs: the decimal numeral 1.5 and
the exponent numeral 1e3 coerce to their numeric values 3/2 and 1000,
and an invalid input coerces to 0. -/
theorem smtp_port_coercion_witness :
    smtpPortOnChange (numberInputValue "1.5") = some ((3 : ℚ) / 2) ∧
    smtpPortOnChange (numberInputValue "1e3") = some 1000 ∧
    smtpPortOnChange (numberInputValue "abc") = some 0 := by
  have e15 : jsNumberValue "1.5".toList =
      some ((digitsVal ['1'] : ℚ) + (digitsVal ['5'] : ℚ) / (10 : ℚ) ^ (1 : Nat)) := rfl
  have v15 : jsNumberValue "1.5".toList = some ((3 : ℚ) / 2) := by
    rw [e15]
    norm_num [show digitsVal ['1'] = 1 from rfl, show digitsVal ['5'] = 5 from rfl]
  have e13 : jsNumberValue "1e3".toList =
      some ((digitsVal ['1'] : ℚ) * (10 : ℚ) ^ (3 : Nat)) := rfl
  have v13 : jsNumberValue "1e3".toList = some (1000 : ℚ) := by
    rw [e13]
    norm_num [show digitsVal ['1'] = 1 from rfl]
  exact ⟨(smtp_port_coercion "1.5").1 ((3 : ℚ) / 2) v15,
         (smtp_port_coercion "1e3").1 1000 v13,
         (smtp_port_coercion "abc").2 rfl⟩

/-- Claim C3: when a search result set arrives, a non-empty prior
selection that occurs among the card numbers of the new set is kept;
otherwise a non-empty set selects the first result; an empty set clears
the selection.  An empty selection string means no card is selected, so
the first branch of the claim ranges over non-empty selections. -/
theorem selection_stability (payload : List Employee) (current : String) :
    (payload = [] → setSelectedCardNoUpdater payload current = "") ∧
    (∀ e rest, payload = e :: rest → current ≠ "" →
      current ∈ payload.map Employee.card_no →
      setSelectedCardNoUpdater payload current = current) ∧
    (∀ e rest, payload = e :: rest →
      (current = "" ∨ current ∉ payload.map Employee.card_no) →
      setSelectedCardNoUpdater payload current = e.card_no) := by
  refine ⟨?_, ?_, ?_⟩
  · intro h
    subst h
    rfl
  · intro e rest h hne hmem
    subst h
    have hany : ((e :: rest).any (fun item => item.card_no == current)) = true := by
      rw [List.any_eq_true]
      rcases List.mem_map.mp hmem with ⟨x, hx, hxc⟩
      exact ⟨x, hx, by simp [hxc]⟩
    simp [setSelectedCardNoUpdater, hne, hany]
  · intro e rest h hcase
    subst h
    rcases hcase with hc | hnm
    · simp [setSelectedCardNoUpdater, hc]
    · by_cases hc : current = ""
      · simp [setSelectedCardNoUpdater, hc]
      · have hany : ((e :: rest).any (fun item => item.card_no == current)) = false := by
          rw [Bool.eq_false_iff]
          intro hany
          rw [List.any_eq_true] at hany
          rcases hany with ⟨x, hx, hbeq⟩
          exact hnm (List.mem_map.mpr ⟨x, hx, by simpa using hbeq⟩)
        simp [setSelectedCardNoUpdater, hc, hany]

/-- Witness for claim C3 at concrete inputs: a still-present selection B
is kept, an absent selection C falls back to the first result A, and an
empty result set clears the selection. -/
theorem selection_stability_witness :
    setSelectedCardNoUpdater [⟨1, "A", "x"⟩, ⟨2, "B", "y"⟩] "B" = "B" ∧
    setSelectedCardNoUpdater [⟨1, "A", "x"⟩, ⟨2, "B", "y"⟩] "C" = "A" ∧
    setSelectedCardNoUpdater ([] : List Employee) "B" = "" := by
  refine ⟨?_, ?_, ?_⟩
  · exact (selection_stability [⟨1, "A", "x"⟩, ⟨2, "B", "y"⟩] "B").2.1
      ⟨1, "A", "x"⟩ [⟨2, "B", "y"⟩] rfl (by decide) (by decide)
  · exact (selection_stability [⟨1, "A", "x"⟩, ⟨2, "B", "y"⟩] "C").2.2
      ⟨1, "A", "x"⟩ [⟨2, "B", "y"⟩] rfl (Or.inr (by decide))
  · exact (selection_stability ([] : List Employee) "B").1 rfl

/-- Claim C5: the shared patchUser helper returns true exactly on a 2xx
status, returns false on a 401 consumed by the shared unauthorized
handler, and on every other non-2xx status throws the message extracted
from the parseable error or detail body field, with a generic fallback. -/
theorem patchUser_contract (status : Nat) (body : Option ErrBody) :
    (patchUser status body = .ok true ↔ is2xx status = true) ∧
    (status = 401 → patchUser status body = .ok false) ∧
    (is2xx status = false → status ≠ 401 →
      patchUser status body = .thrown (extractErr body "Failed to update user")) := by
  refine ⟨?_, ?_, ?_⟩
  · constructor
    · intro h
      by_cases h401 : status = 401
      · subst h401
        simp [patchUser, handleUnauthorized] at h
      · by_cases h2 : is2xx status = true
        · exact h2
        · rw [Bool.not_eq_true] at h2
          simp [patchUser, handleUnauthorized, h401, h2] at h
    · intro h2
      have h401 : status ≠ 401 := by
        intro he
        subst he
        exact absurd h2 (by decide)
      simp [patchUser, handleUnauthorized, h401, h2]
  · intro h401
    subst h401
    simp [patchUser, handleUnauthorized]
  · intro h2 h401
    simp [patchUser, handleUnauthorized, h401, h2]

/-- Witness for claim C5 at concrete inputs: a 204 returns true, a 401
returns false, a 404 with a parseable detail field throws that detail. -/
theorem patchUser_contract_witness :
    patchUser 204 none = .ok true ∧
    patchUser 401 (some { error := some "x", detail := none }) = .ok false ∧
    patchUser 404 (some { error := none, detail := some "missing" }) = .thrown "missing" := by
  refine ⟨?_, ?_, ?_⟩
  · exact (patchUser_contract 204 none).1.mpr (by decide)
  · exact (patchUser_contract 401 (some { error := some "x", detail := none })).2.1 rfl
  · have h := (patchUser_contract 404 (some { error := none, detail := some "missing" })).2.2
      (by decide) (by decide)
    simpa [extractErr] using h

/-- Claim C6: every failed SMTP save (non-2xx non-401 response, or a
network error) shows a nonempty error message and leaves the whole SMTP
form buffer exactly as it was before the save began. -/
theorem saveSmtp_failure_preserves_form (s : SmtpPanelState) (o : SmtpOutcome)
    (h : isSaveFailure o = true) :
    (saveSmtpSettings s o).smtpForm = s.smtpForm ∧
    (saveSmtpSettings s o).smtpMessage ≠ "" := by
  cases o with
  | unauthorized => exact absurd h (by decide)
  | success p => simp [isSaveFailure] at h
  | httpError body =>
      refine ⟨rfl, ?_⟩
      simpa [saveSmtpSettings] using
        jsOrString_ne_empty (extractErr body "Failed to save SMTP settings")
          "Failed to save SMTP settings" (by decide)
  | networkError msg =>
      refine ⟨rfl, ?_⟩
      simpa [saveSmtpSettings] using
        jsOrString_ne_empty msg "Failed to save SMTP settings" (by decide)

/-- Witness for claim C6 at a concrete input: a network error during the
save leaves the form untouched and shows a nonempty message. -/
theorem saveSmtp_failure_preserves_form_witness :
    isSaveFailure (.networkError "boom") = true ∧
    ((saveSmtpSettings
        ⟨⟨"h", 587, "u", "pw", "f", "n", true, false, "", none⟩, false, false, "", ""⟩
        (.networkError "boom")).smtpForm =
      ⟨"h", 587, "u", "pw", "f", "n", true, false, "", none⟩ ∧
     (saveSmtpSettings
        ⟨⟨"h", 587, "u", "pw", "f", "n", true, false, "", none⟩, false, false, "", ""⟩
        (.networkError "boom")).smtpMessage ≠ "") := by
  constructor
  · rfl
  · exact saveSmtp_failure_preserves_form
      ⟨⟨"h", 587, "u", "pw", "f", "n", true, false, "", none⟩, false, false, "", ""⟩
      (.networkError "boom") rfl

/-- Claim C8: a successful create-user submission resets the creation
form to its defaults (empty email, username and password, inspector
role) and is followed by exactly one user-list reload request; a failed
submission leaves the creation form exactly as entered and triggers no
reload. -/
theorem createUser_reset_and_retain (form : NewUserForm) (o : CreateOutcome)
    (h : isCreateFailure o = true) :
    createUser .admin form .success = (1, defaultNewUserForm, "User created.") ∧
    (createUser .admin form o).2.1 = form ∧
    (createUser .admin form o).1 = 0 := by
  refine ⟨rfl, ?_, ?_⟩ <;> cases o <;> first
    | rfl
    | exact absurd h (by decide)

/-- Witness for claim C8 at concrete inputs: a success resets the form
and issues one reload; a failed response keeps the entered values. -/
theorem createUser_reset_and_retain_witness :
    isCreateFailure (.httpError none) = true ∧
    (createUser .admin ⟨"a@b.c", "ab", "pw", .inspector⟩ .success =
      (1, defaultNewUserForm, "User created.") ∧
     (createUser .admin ⟨"a@b.c", "ab", "pw", .inspector⟩ (.httpError none)).2.1 =
      ⟨"a@b.c", "ab", "pw", .inspector⟩ ∧
     (createUser .admin ⟨"a@b.c", "ab", "pw", .inspector⟩ (.httpError none)).1 = 0) :=
  ⟨rfl, createUser_reset_and_retain ⟨"a@b.c", "ab", "pw", .inspector⟩ (.httpError none) rfl⟩

/-- Running the machine with a pending timer over a rapid keystroke
sequence: every keystroke arrives before the current deadline, so every
pending timer but the last is cancelled and only the final keystroke
issues its request. -/
theorem debounceProcess_rapid (rest : List Keystroke) :
    ∀ (k : Keystroke) (d : Nat) (s : String), k.time < d →
      rapidTyping (k :: rest) = true →
      debounceProcess (some (d, s)) (k :: rest) =
        ([((k :: rest).getLast (List.cons_ne_nil k rest)).text],
          s :: (k :: rest).dropLast.map Keystroke.text) := by
  induction rest with
  | nil =>
      intro k d s hd _
      have hnle : ¬ d ≤ k.time := Nat.not_le.mpr hd
      simp [debounceProcess, hnle]
  | cons k2 rest2 ih =>
      intro k d s hd hr
      have hnle : ¬ d ≤ k.time := Nat.not_le.mpr hd
      have hparts := hr
      rw [rapidTyping, Bool.and_eq_true, decide_eq_true_eq] at hparts
      have h1 : k2.time < k.time + debounceDelay := hparts.1
      have h2 : rapidTyping (k2 :: rest2) = true := hparts.2
      have hrec := ih k2 (k.time + debounceDelay) k.text h1 h2
      rw [debounceProcess, if_neg hnle]
      simp [hrec, List.getLast_cons, List.dropLast_cons₂]

/-- Claim C1: for every non-empty keystroke sequence in which each
keystroke arrives strictly less than 250ms after the previous one, the
debounced search issues exactly one request whose query text is the
final keystroke text, and the pending timer of every earlier keystroke
is cancelled by the arrival of the next keystroke. -/
theorem debounce_rapid_typing (ks : List Keystroke) (hne : ks ≠ [])
    (hr : rapidTyping ks = true) :
    (debounceRun ks).1 = [(ks.getLast hne).text] ∧
    (debounceRun ks).2 = ks.dropLast.map Keystroke.text := by
  cases ks with
  | nil => exact absurd rfl hne
  | cons k rest =>
      cases rest with
      | nil => exact ⟨rfl, rfl⟩
      | cons k2 rest2 =>
          have hparts := hr
          rw [rapidTyping, Bool.and_eq_true, decide_eq_true_eq] at hparts
          have h := debounceProcess_rapid rest2 k2 (k.time + debounceDelay)
            k.text hparts.1 hparts.2
          have hrun : debounceRun (k :: k2 :: rest2) =
              debounceProcess (some (k.time + debounceDelay, k.text)) (k2 :: rest2) := rfl
          rw [hrun, h]
          simp [List.getLast_cons, List.dropLast_cons₂]

/-- Witness for claim C1 at a concrete rapid sequence with gaps of 100ms
and 140ms: one request for the final text, the two earlier timers
cancelled. -/
theorem debounce_rapid_typing_witness :
    (debounceRun [⟨0, "a"⟩, ⟨100, "ab"⟩, ⟨240, "abc"⟩]).1 = ["abc"] ∧
    (debounceRun [⟨0, "a"⟩, ⟨100, "ab"⟩, ⟨240, "abc"⟩]).2 = ["a", "ab"] := by
  have h := debounce_rapid_typing [⟨0, "a"⟩, ⟨100, "ab"⟩, ⟨240, "abc"⟩]
    (by decide) (by decide)
  exact ⟨h.1.trans rfl, h.2.trans rfl⟩

/-- Claim C10: getBackendApiUrl throws exactly when none of the three
environment variables holds a non-blank value after trimming, and
otherwise returns the first non-blank value, trimmed, with a single
trailing slash removed. -/
theorem getBackendApiUrl_contract (b a n : Option String) :
    (isErrResult (getBackendApiUrl b a n) = true ↔
      nonBlankEnv b = none ∧ nonBlankEnv a = none ∧ nonBlankEnv n = none) ∧
    (∀ v, [b, a, n].findSome? nonBlankEnv = some v →
      getBackendApiUrl b a n = .ok (stripOneTrailingSlash v)) := by
  constructor
  · cases hb : nonBlankEnv b <;> cases ha : nonBlankEnv a <;> cases hn : nonBlankEnv n <;>
      simp [getBackendApiUrl, hb, ha, hn, isErrResult]
  · intro v hv
    rw [List.findSome?_cons] at hv
    cases hb : nonBlankEnv b with
    | some w =>
        rw [hb] at hv
        cases hv
        simp [getBackendApiUrl, hb]
    | none =>
        rw [hb] at hv
        rw [List.findSome?_cons] at hv
        cases ha : nonBlankEnv a with
        | some w =>
            rw [ha] at hv
            cases hv
            simp [getBackendApiUrl, hb, ha]
        | none =>
            rw [ha] at hv
            rw [List.findSome?_cons] at hv
            cases hn : nonBlankEnv n with
            | some w =>
                rw [hn] at hv
                cases hv
                simp [getBackendApiUrl, hb, ha, hn]
            | none =>
                rw [hn] at hv
                simp at hv

/-- Witness for claim C10 at concrete environment values: the first
variable unset, the second blank-padded with a trailing slash, the third
also set; the second wins, trimmed and stripped of its trailing slash. -/
theorem getBackendApiUrl_contract_witness :
    getBackendApiUrl none (some " http://x/ ") (some "y") = .ok "http://x" := by
  have h := (getBackendApiUrl_contract none (some " http://x/ ") (some "y")).2
    "http://x/" (by decide)
  have hs : stripOneTrailingSlash "http://x/" = "http://x" := by decide
  rw [hs] at h
  exact h

end OcEnex
